import Mathlib

/-!
Shallow embedding of alvr/filesystem/src/lib.rs: the Layout value object, the
root-override cache, the container-path translator and the three entry points,
together with theorems checking the specified properties of the layout engine.
-/

namespace ALVR

/-- Target operating systems distinguished by the cfg! checks in the source:
windows, linux (the FHS family), macos, and otherOS for any other target. -/
inductive OS where
  | windows
  | linux
  | macos
  | otherOS
  deriving DecidableEq

/-- Embeds a Rust Path/PathBuf on a Unix-like target: a flag recording whether
the path is absolute (has a root component) plus the list of normal components. -/
structure RPath where
  absolute : Bool
  components : List String
  deriving DecidableEq

/-- Embeds Path::join (PathBuf::push): when the argument is absolute it replaces
the whole path, otherwise its components are appended to the base path. -/
def RPath.join (p q : RPath) : RPath :=
  if q.absolute then q else RPath.mk p.absolute (p.components ++ q.components)

/-- Embeds Path::parent: drops the final component; None when the path is a bare
root or empty. -/
def RPath.parent (p : RPath) : Option RPath :=
  match p.components with
  | [] => none
  | _ :: _ => some (RPath.mk p.absolute p.components.dropLast)

/-- Embeds str::starts_with for string patterns: a prefix test on the sequence
of characters. -/
def str_starts_with (s p : String) : Bool :=
  p.data.isPrefixOf s.data

/-- State of the container marker file /run/host/container-manager: absent,
existing but unreadable, or readable with the given text content. -/
inductive MarkerState where
  | absent
  | unreadable
  | content (s : String)
  deriving DecidableEq

/-- Embeds the IS_PRESSURE_VESSEL lazy static: true exactly when the marker file
exists, is readable, and its content starts with "pressure-vessel". -/
def IS_PRESSURE_VESSEL (m : MarkerState) : Bool :=
  match m with
  | MarkerState.content s => str_starts_with s "pressure-vessel"
  | _ => false

/-- Build-time and process environment consumed by the crate: the target OS, the
marker-file state, the option_env! overrides (each already parsed into a path,
with the root override in field root), and the results of the dirs platform
lookups (dirs::config_dir and dirs::home_dir). -/
structure BuildEnv where
  os : OS
  marker : MarkerState
  root : Option RPath
  executables_dir : Option RPath
  libraries_dir : Option RPath
  static_resources_dir : Option RPath
  config_dir : Option RPath
  log_dir : Option RPath
  openvr_driver_root_dir : Option RPath
  vrcompositor_wrapper_dir : Option RPath
  firewall_script_dir : Option RPath
  firewalld_config_dir : Option RPath
  ufw_config_dir : Option RPath
  vulkan_layer_manifest_dir : Option RPath
  dirs_config_dir : Option RPath
  dirs_home_dir : Option RPath
  deriving DecidableEq

/-- Embeds pressure_vessel_path (both cfg variants): on Linux, when running
under pressure-vessel, the input is joined onto /run/host (with Path::join
semantics); in every other case the input is returned unchanged. -/
def pressure_vessel_path (env : BuildEnv) (path : RPath) : RPath :=
  if env.os = OS.linux then
    if IS_PRESSURE_VESSEL env.marker then (RPath.mk true ["run", "host"]).join path
    else path
  else path

/-- Embeds dashboard_fname: "ALVR Dashboard.exe" on Windows, "alvr_dashboard"
elsewhere. -/
def dashboard_fname (os : OS) : String :=
  if os = OS.windows then "ALVR Dashboard.exe" else "alvr_dashboard"

/-- Embeds the Layout struct: the eleven directory fields of the installation. -/
structure Layout where
  executables_dir : RPath
  libraries_dir : RPath
  static_resources_dir : RPath
  config_dir : RPath
  log_dir : RPath
  openvr_driver_root_dir : RPath
  vrcompositor_wrapper_dir : RPath
  firewall_script_dir : RPath
  firewalld_config_dir : RPath
  ufw_config_dir : RPath
  vulkan_layer_manifest_dir : RPath
  deriving DecidableEq

/-- Embeds Layout::new. On Linux each directory is the root joined with its
override-or-default relative path, except config_dir (override, else platform
config dir joined with "alvr") and log_dir (override, else home dir), whose
unwrap panics — modelled as none — when neither source yields a value. On every
other target all eleven fields equal the root. -/
def Layout.new (env : BuildEnv) (root : RPath) : Option Layout :=
  if env.os = OS.linux then
    match env.config_dir <|> env.dirs_config_dir.map (fun p => p.join (RPath.mk false ["alvr"])),
          env.log_dir <|> env.dirs_home_dir with
    | some config_dir, some log_dir =>
        some (Layout.mk
          (root.join (env.executables_dir.getD (RPath.mk false ["bin"])))
          (root.join (env.libraries_dir.getD (RPath.mk false ["lib64"])))
          (root.join (env.static_resources_dir.getD (RPath.mk false ["share", "alvr"])))
          config_dir
          log_dir
          (root.join (env.openvr_driver_root_dir.getD (RPath.mk false ["lib64", "alvr"])))
          (root.join (env.vrcompositor_wrapper_dir.getD (RPath.mk false ["libexec", "alvr"])))
          (root.join (env.firewall_script_dir.getD (RPath.mk false ["libexec", "alvr"])))
          (root.join (env.firewalld_config_dir.getD (RPath.mk false ["libexec", "alvr"])))
          (root.join (env.ufw_config_dir.getD (RPath.mk false ["libexec", "alvr"])))
          (root.join (env.vulkan_layer_manifest_dir.getD
            (RPath.mk false ["share", "vulkan", "explicit_layer.d"]))))
    | _, _ => none
  else
    some (Layout.mk root root root root root root root root root root root)

/-- Embeds Layout::dashboard_exe: the executables directory joined with the
platform dashboard filename. -/
def Layout.dashboard_exe (os : OS) (l : Layout) : RPath :=
  l.executables_dir.join (RPath.mk false [dashboard_fname os])

/-- Embeds the platform-tag selection in Layout::openvr_driver_lib_dir; the
unimplemented! arm for an unlisted OS is modelled as none. -/
def openvr_platform (os : OS) : Option String :=
  match os with
  | OS.windows => some "win64"
  | OS.linux => some "linux64"
  | OS.macos => some "macos"
  | OS.otherOS => none

/-- Embeds Layout::openvr_driver_lib_dir: the driver root joined with "bin" and
the platform tag; none models the unimplemented! abort on an unlisted OS. -/
def Layout.openvr_driver_lib_dir (os : OS) (l : Layout) : Option RPath :=
  (openvr_platform os).map
    (fun tag => (l.openvr_driver_root_dir.join (RPath.mk false ["bin"])).join (RPath.mk false [tag]))

/-- Embeds the LAYOUT_FROM_ENV lazy static: when the build-time root override is
present, the Layout built from the translated override root (inner none models a
panic inside Layout::new); the outer none models an absent override. -/
def LAYOUT_FROM_ENV (env : BuildEnv) : Option (Option Layout) :=
  env.root.map (fun root => Layout.new env (pressure_vessel_path env root))

/-- Embeds filesystem_layout_from_dashboard_exe: the cached override layout when
present, otherwise the Layout built from the path stripped of two components on
Linux and of one component elsewhere; none models the unwrap panics. -/
def filesystem_layout_from_dashboard_exe (env : BuildEnv) (path : RPath) : Option Layout :=
  match LAYOUT_FROM_ENV env with
  | some cached => cached
  | none =>
    match (if env.os = OS.linux then path.parent.bind RPath.parent else path.parent) with
    | some root => Layout.new env root
    | none => none

/-- Embeds filesystem_layout_from_openvr_driver_root_dir: the cached override
layout when present, otherwise the Layout built from the directory stripped of
two components on Linux and from the directory itself elsewhere. -/
def filesystem_layout_from_openvr_driver_root_dir (env : BuildEnv) (dir : RPath) : Option Layout :=
  match LAYOUT_FROM_ENV env with
  | some cached => cached
  | none =>
    match (if env.os = OS.linux then dir.parent.bind RPath.parent else some dir) with
    | some root => Layout.new env root
    | none => none

/-- Embeds filesystem_layout_invalid: the cached override layout when present,
otherwise the Layout built from the empty path. -/
def filesystem_layout_invalid (env : BuildEnv) : Option Layout :=
  match LAYOUT_FROM_ENV env with
  | some cached => cached
  | none => Layout.new env (RPath.mk false [])

/-- Sample Linux environment: no overrides, marker absent, both platform
lookups succeed. -/
def envLinux : BuildEnv :=
  BuildEnv.mk OS.linux MarkerState.absent none none none none none none none none
    none none none none (some (RPath.mk true ["home", "user", ".config"]))
    (some (RPath.mk true ["home", "user"]))

/-- Sample Windows environment: no overrides, marker absent, no platform
lookups. -/
def envWindows : BuildEnv :=
  BuildEnv.mk OS.windows MarkerState.absent none none none none none none none none
    none none none none none none

/-- Linux environment whose marker file content starts with "pressure-vessel". -/
def envPV : BuildEnv :=
  { envLinux with marker := MarkerState.content "pressure-vessel-extra-text" }

/-- Linux environment whose marker file content is "other-runtime". -/
def envOtherRuntime : BuildEnv :=
  { envLinux with marker := MarkerState.content "other-runtime" }

/-- Linux environment whose marker file exists but is unreadable. -/
def envUnreadable : BuildEnv :=
  { envLinux with marker := MarkerState.unreadable }

/-- Linux environment where no config override is set and both platform
lookups fail. -/
def envNoLookup : BuildEnv :=
  { envLinux with dirs_config_dir := none, dirs_home_dir := none }

/-- Linux environment with a config_dir override set. -/
def envLinuxCfg : BuildEnv :=
  { envLinux with config_dir := some (RPath.mk true ["etc", "alvr"]) }

/-- The absolute path /opt/app. -/
def optApp : RPath := RPath.mk true ["opt", "app"]

/-- The absolute path /run/host/opt/app. -/
def runHostOptApp : RPath := RPath.mk true ["run", "host", "opt", "app"]

/-- The override root /opt/alvr used in concrete instantiations. -/
def rootOverride : RPath := RPath.mk true ["opt", "alvr"]

/-- Windows environment with the build-time root override set. -/
def envWinRoot : BuildEnv := { envWindows with root := some rootOverride }

/-- The flat Layout whose fields all equal the override root. -/
def layoutWinRoot : Layout :=
  Layout.mk rootOverride rootOverride rootOverride rootOverride rootOverride rootOverride
    rootOverride rootOverride rootOverride rootOverride rootOverride

/-- The relative path a/b/c used in concrete instantiations. -/
def relABC : RPath := RPath.mk false ["a", "b", "c"]

/-- The absolute path /a/b/c used in concrete instantiations. -/
def pABC : RPath := RPath.mk true ["a", "b", "c"]

/-- Claim C1: when the build-time root override is set, all three entry points
ignore their path arguments and return the same Layout, the one built from the
override root translated by pressure_vessel_path. -/
theorem C1_override_precedence (env : BuildEnv) (r : RPath) (l : Layout) (pA pB : RPath)
    (hroot : env.root = some r)
    (hnew : Layout.new env (pressure_vessel_path env r) = some l) :
    filesystem_layout_from_dashboard_exe env pA = some l ∧
    filesystem_layout_from_openvr_driver_root_dir env pB = some l ∧
    filesystem_layout_invalid env = some l := by
  simp [filesystem_layout_from_dashboard_exe, filesystem_layout_from_openvr_driver_root_dir,
    filesystem_layout_invalid, LAYOUT_FROM_ENV, hroot, hnew]

/-- Claim C1, witness: the override precedence at a concrete Windows environment
with override root /opt/alvr and two distinct input paths. -/
theorem C1_override_precedence_witness :
    filesystem_layout_from_dashboard_exe envWinRoot pABC = some layoutWinRoot ∧
    filesystem_layout_from_openvr_driver_root_dir envWinRoot (RPath.mk true ["d", "e"])
      = some layoutWinRoot ∧
    filesystem_layout_invalid envWinRoot = some layoutWinRoot :=
  C1_override_precedence envWinRoot rootOverride layoutWinRoot pABC (RPath.mk true ["d", "e"])
    (by decide) (by decide)

/-- Claim C2: at the failing input the container marker detection fires, yet
translating the absolute path /opt/app returns it unchanged — Path::join
discards the /run/host base when its argument is absolute — instead of the
specified /run/host/opt/app; the non-matching, absent and unreadable marker
cases leave the path unchanged as specified. -/
theorem C2_container_translation_inert :
    IS_PRESSURE_VESSEL envPV.marker = true ∧
    pressure_vessel_path envPV optApp = optApp ∧
    pressure_vessel_path envPV optApp ≠ runHostOptApp ∧
    pressure_vessel_path envOtherRuntime optApp = optApp ∧
    pressure_vessel_path envLinux optApp = optApp ∧
    pressure_vessel_path envUnreadable optApp = optApp := by decide

/-- Claim C3, counterexample: under the pressure-vessel sandbox with no
override, the dashboard entry point builds its Layout from the raw derived root,
which differs from the Layout built from the translated derived root. -/
theorem C3_counterexample :
    filesystem_layout_from_dashboard_exe envPV relABC
      ≠ Layout.new envPV (pressure_vessel_path envPV (RPath.mk false ["a"])) := by decide

/-- Claim C3, amended: only the build-time override root passes through the
container path translator; with no override the roots derived from the
dashboard-exe and driver-root path arguments are used untranslated to build the
Layout. -/
theorem C3_untranslated_roots (env : BuildEnv) (p q r d e f : RPath)
    (hroot : env.root = none) (hlin : env.os = OS.linux)
    (hp : p.parent = some q) (hq : q.parent = some r)
    (hd : d.parent = some e) (he : e.parent = some f) :
    filesystem_layout_from_dashboard_exe env p = Layout.new env r ∧
    filesystem_layout_from_openvr_driver_root_dir env d = Layout.new env f := by
  simp [filesystem_layout_from_dashboard_exe, filesystem_layout_from_openvr_driver_root_dir,
    LAYOUT_FROM_ENV, hroot, hlin, hp, hq, hd, he]

/-- Claim C3, witness: the untranslated-root behaviour at the concrete
pressure-vessel environment and the relative path a/b/c. -/
theorem C3_untranslated_roots_witness :
    filesystem_layout_from_dashboard_exe envPV relABC = Layout.new envPV (RPath.mk false ["a"]) ∧
    filesystem_layout_from_openvr_driver_root_dir envPV relABC
      = Layout.new envPV (RPath.mk false ["a"]) :=
  C3_untranslated_roots envPV relABC (RPath.mk false ["a", "b"]) (RPath.mk false ["a"])
    relABC (RPath.mk false ["a", "b"]) (RPath.mk false ["a"])
    (by decide) (by decide) (by decide) (by decide) (by decide) (by decide)

/-- Claim C4, counterexample: on Linux with no config override and a failing
platform config-directory lookup, Layout::new panics (returns no Layout). -/
theorem C4_counterexample :
    Layout.new envNoLookup (RPath.mk true ["usr"]) = none := by decide

/-- Claim C4, amended: Layout construction is pure and, on the flat-layout
family, total; on the FHS family it returns a Layout exactly when both the
config resolution (override, else platform config lookup) and the log
resolution (override, else home lookup) yield a value, and panics otherwise.
For every root the outcome is the same. -/
theorem C4_totality (env : BuildEnv) (root : RPath) :
    (Layout.new env root).isSome = true ↔
      (env.os = OS.linux →
        ((env.config_dir <|>
            env.dirs_config_dir.map (fun p => p.join (RPath.mk false ["alvr"]))).isSome = true ∧
         (env.log_dir <|> env.dirs_home_dir).isSome = true)) := by
  by_cases h : env.os = OS.linux
  · cases hc : env.config_dir <|>
        env.dirs_config_dir.map (fun p => p.join (RPath.mk false ["alvr"])) with
    | none => cases hl : env.log_dir <|> env.dirs_home_dir <;> simp [Layout.new, h, hc, hl]
    | some c => cases hl : env.log_dir <|> env.dirs_home_dir <;> simp [Layout.new, h, hc, hl]
  · simp [Layout.new, h]

/-- Claim C4, witness: the totality criterion evaluated at the concrete Linux
environment with working platform lookups and the root /usr. -/
theorem C4_totality_witness :
    (Layout.new envLinux (RPath.mk true ["usr"])).isSome = true ↔
      (envLinux.os = OS.linux →
        ((envLinux.config_dir <|>
            envLinux.dirs_config_dir.map (fun p => p.join (RPath.mk false ["alvr"]))).isSome = true ∧
         (envLinux.log_dir <|> envLinux.dirs_home_dir).isSome = true)) :=
  C4_totality envLinux (RPath.mk true ["usr"])

/-- Claim C5: with no override, on the FHS family both entry points build the
Layout from the root two levels above their argument, while on the flat family
the dashboard entry point uses the immediate parent and the driver entry point
uses the directory itself. -/
theorem C5_root_derivation (envL envF : BuildEnv) (p q r d : RPath)
    (hLroot : envL.root = none) (hL : envL.os = OS.linux)
    (hFroot : envF.root = none) (hF : envF.os ≠ OS.linux)
    (hp : p.parent = some q) (hq : q.parent = some r) :
    filesystem_layout_from_dashboard_exe envL p = Layout.new envL r ∧
    filesystem_layout_from_openvr_driver_root_dir envL p = Layout.new envL r ∧
    filesystem_layout_from_dashboard_exe envF p = Layout.new envF q ∧
    filesystem_layout_from_openvr_driver_root_dir envF d = Layout.new envF d := by
  simp [filesystem_layout_from_dashboard_exe, filesystem_layout_from_openvr_driver_root_dir,
    LAYOUT_FROM_ENV, hLroot, hL, hFroot, hF, hp, hq]

/-- Claim C5, witness: the root derivations at the concrete path /a/b/c on Linux
and on Windows, and at the directory /d for the flat driver entry point. -/
theorem C5_root_derivation_witness :
    filesystem_layout_from_dashboard_exe envLinux pABC = Layout.new envLinux (RPath.mk true ["a"]) ∧
    filesystem_layout_from_openvr_driver_root_dir envLinux pABC
      = Layout.new envLinux (RPath.mk true ["a"]) ∧
    filesystem_layout_from_dashboard_exe envWindows pABC
      = Layout.new envWindows (RPath.mk true ["a", "b"]) ∧
    filesystem_layout_from_openvr_driver_root_dir envWindows (RPath.mk true ["d"])
      = Layout.new envWindows (RPath.mk true ["d"]) :=
  C5_root_derivation envLinux envWindows pABC (RPath.mk true ["a", "b"]) (RPath.mk true ["a"])
    (RPath.mk true ["d"]) (by decide) (by decide) (by decide) (by decide) (by decide) (by decide)

/-- Claim C6, counterexample: the round trip fails for a dashboard-exe path
whose final component is not the platform dashboard filename. -/
theorem C6_counterexample :
    (filesystem_layout_from_dashboard_exe envWindows (RPath.mk true ["x", "foo"])).map
      (Layout.dashboard_exe OS.windows) ≠ some (RPath.mk true ["x", "foo"]) := by decide

/-- Claim C6, amended: on the flat-layout family with no override, for every
path whose final component is the platform dashboard filename, the Layout built
from it reconstructs the path exactly through dashboard_exe. -/
theorem C6_roundtrip (env : BuildEnv) (p : RPath)
    (hroot : env.root = none) (hos : env.os ≠ OS.linux)
    (hlast : p.components.getLast? = some (dashboard_fname env.os)) :
    (filesystem_layout_from_dashboard_exe env p).map (Layout.dashboard_exe env.os) = some p := by
  obtain ⟨ab, cs⟩ := p
  have hcs : cs.dropLast ++ [dashboard_fname env.os] = cs :=
    List.dropLast_append_getLast? _ (Option.mem_def.mpr hlast)
  cases cs with
  | nil => simp at hlast
  | cons a as =>
    simp [filesystem_layout_from_dashboard_exe, LAYOUT_FROM_ENV, hroot, hos, RPath.parent,
      Layout.new, Layout.dashboard_exe, RPath.join]
    exact hcs

/-- Claim C6, witness: the round trip at the concrete Windows path whose final
component is the dashboard filename. -/
theorem C6_roundtrip_witness :
    (filesystem_layout_from_dashboard_exe envWindows
        (RPath.mk true ["x", "ALVR Dashboard.exe"])).map (Layout.dashboard_exe envWindows.os)
      = some (RPath.mk true ["x", "ALVR Dashboard.exe"]) :=
  C6_roundtrip envWindows (RPath.mk true ["x", "ALVR Dashboard.exe"])
    (by decide) (by decide) (by decide)

/-- Claim C7: for every Layout the driver library directory is the driver root
joined with bin and the fixed platform tag — win64, linux64, macos — so its
final component is exactly that tag, and on any other OS the operation is the
unimplemented! abort rather than a path. -/
theorem C7_platform_tag_selection (l : Layout) :
    Layout.openvr_driver_lib_dir OS.windows l
      = some ((l.openvr_driver_root_dir.join (RPath.mk false ["bin"])).join
          (RPath.mk false ["win64"])) ∧
    Layout.openvr_driver_lib_dir OS.linux l
      = some ((l.openvr_driver_root_dir.join (RPath.mk false ["bin"])).join
          (RPath.mk false ["linux64"])) ∧
    Layout.openvr_driver_lib_dir OS.macos l
      = some ((l.openvr_driver_root_dir.join (RPath.mk false ["bin"])).join
          (RPath.mk false ["macos"])) ∧
    (Layout.openvr_driver_lib_dir OS.windows l).map (fun p => p.components.getLast?)
      = some (some "win64") ∧
    (Layout.openvr_driver_lib_dir OS.linux l).map (fun p => p.components.getLast?)
      = some (some "linux64") ∧
    (Layout.openvr_driver_lib_dir OS.macos l).map (fun p => p.components.getLast?)
      = some (some "macos") ∧
    Layout.openvr_driver_lib_dir OS.otherOS l = none := by
  simp [Layout.openvr_driver_lib_dir, openvr_platform, RPath.join, List.getLast?_concat]

/-- Claim C7, witness: the platform-tag selection at a concrete Layout. -/
theorem C7_platform_tag_selection_witness :
    Layout.openvr_driver_lib_dir OS.windows layoutWinRoot
      = some ((layoutWinRoot.openvr_driver_root_dir.join (RPath.mk false ["bin"])).join
          (RPath.mk false ["win64"])) ∧
    Layout.openvr_driver_lib_dir OS.linux layoutWinRoot
      = some ((layoutWinRoot.openvr_driver_root_dir.join (RPath.mk false ["bin"])).join
          (RPath.mk false ["linux64"])) ∧
    Layout.openvr_driver_lib_dir OS.macos layoutWinRoot
      = some ((layoutWinRoot.openvr_driver_root_dir.join (RPath.mk false ["bin"])).join
          (RPath.mk false ["macos"])) ∧
    (Layout.openvr_driver_lib_dir OS.windows layoutWinRoot).map (fun p => p.components.getLast?)
      = some (some "win64") ∧
    (Layout.openvr_driver_lib_dir OS.linux layoutWinRoot).map (fun p => p.components.getLast?)
      = some (some "linux64") ∧
    (Layout.openvr_driver_lib_dir OS.macos layoutWinRoot).map (fun p => p.components.getLast?)
      = some (some "macos") ∧
    Layout.openvr_driver_lib_dir OS.otherOS layoutWinRoot = none :=
  C7_platform_tag_selection layoutWinRoot

/-- Claim C8: on the FHS family the config_dir of the built Layout does not
depend on the root — for any two roots the resulting config_dir agrees — and it
is the override value when one is supplied, else the platform per-user config
directory joined with alvr. -/
theorem C8_config_dir_root_independence (envO envN : BuildEnv) (c d R1 R2 : RPath)
    (hO : envO.os = OS.linux) (hc : envO.config_dir = some c)
    (hlogO : (envO.log_dir <|> envO.dirs_home_dir).isSome = true)
    (hN : envN.os = OS.linux) (hn : envN.config_dir = none) (hd : envN.dirs_config_dir = some d)
    (hlogN : (envN.log_dir <|> envN.dirs_home_dir).isSome = true) :
    (Layout.new envO R1).map Layout.config_dir = (Layout.new envO R2).map Layout.config_dir ∧
    (Layout.new envN R1).map Layout.config_dir = (Layout.new envN R2).map Layout.config_dir ∧
    (Layout.new envO R1).map Layout.config_dir = some c ∧
    (Layout.new envN R1).map Layout.config_dir = some (d.join (RPath.mk false ["alvr"])) := by
  obtain ⟨lO, hlO⟩ := Option.isSome_iff_exists.mp hlogO
  obtain ⟨lN, hlN⟩ := Option.isSome_iff_exists.mp hlogN
  simp [Layout.new, hO, hc, hN, hn, hd, hlO, hlN]

/-- Claim C8, witness: the config_dir independence and values at the concrete
Linux environments with and without a config override, for roots /r1 and /r2. -/
theorem C8_config_dir_root_independence_witness :
    (Layout.new envLinuxCfg (RPath.mk true ["r1"])).map Layout.config_dir
      = (Layout.new envLinuxCfg (RPath.mk true ["r2"])).map Layout.config_dir ∧
    (Layout.new envLinux (RPath.mk true ["r1"])).map Layout.config_dir
      = (Layout.new envLinux (RPath.mk true ["r2"])).map Layout.config_dir ∧
    (Layout.new envLinuxCfg (RPath.mk true ["r1"])).map Layout.config_dir
      = some (RPath.mk true ["etc", "alvr"]) ∧
    (Layout.new envLinux (RPath.mk true ["r1"])).map Layout.config_dir
      = some ((RPath.mk true ["home", "user", ".config"]).join (RPath.mk false ["alvr"])) :=
  C8_config_dir_root_independence envLinuxCfg envLinux (RPath.mk true ["etc", "alvr"])
    (RPath.mk true ["home", "user", ".config"]) (RPath.mk true ["r1"]) (RPath.mk true ["r2"])
    (by decide) (by decide) (by decide) (by decide) (by decide) (by decide) (by decide)

/-- Claim C9: on the flat-layout family every one of the eleven Layout
directory fields equals the root exactly, for every root. -/
theorem C9_flat_fields_equal_root (env : BuildEnv) (R : RPath) (h : env.os ≠ OS.linux) :
    Layout.new env R = some (Layout.mk R R R R R R R R R R R) := by
  simp [Layout.new, h]

/-- Claim C9, witness: the flat Layout at the concrete Windows environment and
the root /opt/alvr. -/
theorem C9_flat_fields_equal_root_witness :
    Layout.new envWindows rootOverride
      = some (Layout.mk rootOverride rootOverride rootOverride rootOverride rootOverride
          rootOverride rootOverride rootOverride rootOverride rootOverride rootOverride) :=
  C9_flat_fields_equal_root envWindows rootOverride (by decide)

/-- Claim C10: with no override, both FHS entry points panic — return no
Layout — on any path with at most one component (too few removable parents),
and the flat dashboard entry point panics on any path with no parent. -/
theorem C10_short_path_panics (envL envF : BuildEnv) (p q : RPath)
    (hLroot : envL.root = none) (hL : envL.os = OS.linux)
    (hFroot : envF.root = none) (hF : envF.os ≠ OS.linux)
    (hp : p.components.length ≤ 1) (hq : q.components = []) :
    filesystem_layout_from_dashboard_exe envL p = none ∧
    filesystem_layout_from_openvr_driver_root_dir envL p = none ∧
    filesystem_layout_from_dashboard_exe envF q = none := by
  have hpp : p.parent.bind RPath.parent = none := by
    match hcs : p.components with
    | [] => simp [RPath.parent, hcs]
    | [a] => simp [RPath.parent, hcs]
    | a :: b :: cs => rw [hcs] at hp; simp at hp
  have hqq : q.parent = none := by simp [RPath.parent, hq]
  simp [filesystem_layout_from_dashboard_exe, filesystem_layout_from_openvr_driver_root_dir,
    LAYOUT_FROM_ENV, hLroot, hL, hFroot, hF, hpp, hqq]

/-- Claim C10, witness: the panics at the concrete bare filename on Linux and
the bare root path on Windows. -/
theorem C10_short_path_panics_witness :
    filesystem_layout_from_dashboard_exe envLinux (RPath.mk false ["file"]) = none ∧
    filesystem_layout_from_openvr_driver_root_dir envLinux (RPath.mk false ["file"]) = none ∧
    filesystem_layout_from_dashboard_exe envWindows (RPath.mk true []) = none :=
  C10_short_path_panics envLinux envWindows (RPath.mk false ["file"]) (RPath.mk true [])
    (by decide) (by decide) (by decide) (by decide) (by decide) (by decide)

end ALVR
